import Mathlib

/-!
Verification of the notifier service (`backend-services/notifier/core/notifier.py`).

The embedding models:
- the module-level load of `HIJACK_LOG_FILTER` (`loadFilterConfig`);
- `HijackLogFilter.filter`, the logging filter both `hij_log` and `mail_log`
  carry (`HijackLogFilter.filter` below, over `FilterResult` which makes the
  possible `KeyError` from `rec.__dict__[filter_entry_key]` explicit);
- the two consumer callbacks `Worker.handle_hij_log` / `Worker.handle_mail_log`:
  each acks the message, then calls `logger.info(json.dumps(payload), extra=...)`,
  which builds a `logging.LogRecord`, runs the attached filter over the record's
  `__dict__`, and writes the line when the filter returns True;
- the `Notifier.run` lifecycle (`_running` flag, try/except/finally) as an
  event trace;
- the `/config` REST handler.

Python dicts are modelled as association lists (`Fields`); JSON scalar values
as `Val`.
-/

/-- A JSON-like scalar value, as found in message payloads and in the
parsed `HIJACK_LOG_FILTER` rules. Equality is decidable, matching Python
`==` on these scalars. -/
inductive Val where
  | vstr (s : String)
  | vint (n : Int)
  | vbool (b : Bool)
  | vnull
deriving DecidableEq

/-- A Python dict with string keys, in insertion order: used for message
payloads, for single filter rules, and for the `__dict__` of a log record. -/
abbrev Fields := List (String × Val)

/-- Dict lookup: first binding of the key, if any (Python dict indexing,
made partial so a `KeyError` is representable). -/
def lookupField : Fields → String → Option Val
  | [], _ => none
  | (k, v) :: rest, key => if k = key then some v else lookupField rest key

/-- Outcome of `HijackLogFilter.filter`: the Python method returns `True`
(`accept`), returns `False` (`reject`), or raises `KeyError` when it indexes
`rec.__dict__` at a key the record does not have. -/
inductive FilterResult where
  | accept
  | reject
  | keyError
deriving DecidableEq

/-- The inner loop of `HijackLogFilter.filter` over one `filter_entry`
(one rule dict): for each (key, value) pair in order, evaluate
`rec.__dict__[filter_entry_key]` — raising `KeyError` if absent — and
return `True` on the first pair whose value equals the record's; `False`
if no pair of this entry matched. -/
def scanRule (recDict : Fields) : Fields → FilterResult
  | [] => .reject
  | (k, v) :: rest =>
    match lookupField recDict k with
    | none => .keyError
    | some rv => if rv = v then .accept else scanRule recDict rest

/-- The outer loop of `HijackLogFilter.filter` over `hij_log_filter`:
returns `True` as soon as any entry yields a pair match, propagates a
`KeyError`, and returns `False` after all entries are exhausted. -/
def scanRules (recDict : Fields) : List Fields → FilterResult
  | [] => .reject
  | rule :: rest =>
    match scanRule recDict rule with
    | .accept => .accept
    | .keyError => .keyError
    | .reject => scanRules recDict rest

/-- `HijackLogFilter.filter(self, rec)` from the source, with the global
`hij_log_filter` made an explicit first argument and `rec.__dict__` the
second: `if not hij_log_filter: return True`, then the two nested loops. -/
def HijackLogFilter.filter (rules : List Fields) (recDict : Fields) : FilterResult :=
  match rules with
  | [] => .accept
  | _ => scanRules recDict rules

/-- Spec-side predicate (modelled from the spec's words, for comparison with
the code): a record is accepted by a rule if ALL its pairs match equal values
in the record. -/
def specRuleMatchesAll (recDict : Fields) (rule : Fields) : Bool :=
  rule.all (fun kv => decide (lookupField recDict kv.1 = some kv.2))

/-- Code-side characterisation: some single pair of the rule matches the
record (the source's inner loop returns `True` on the FIRST equal pair,
without checking the remaining pairs of the rule). -/
def anyPairMatches (recDict : Fields) (rule : Fields) : Bool :=
  rule.any (fun kv => decide (lookupField recDict kv.1 = some kv.2))

/-- Every key named by the rule is present in the record dict (the condition
under which the source's dict indexing cannot raise `KeyError`). -/
def keysPresent (recDict : Fields) (rule : Fields) : Bool :=
  rule.all (fun kv => (lookupField recDict kv.1).isSome)

/-- `keysPresent` for every rule of the rule set. -/
def allKeysPresent (recDict : Fields) (rules : List Fields) : Bool :=
  rules.all (keysPresent recDict)

/-- `record.get("community_annotation", "NA")`: the value the handlers attach
to the log record via `extra=`. -/
def annotOf (payload : Fields) : Val :=
  (lookupField payload "community_annotation").getD (Val.vstr "NA")

/-- Serialisation of one scalar to JSON text (`ujson.dumps` on scalars). -/
def dumpVal : Val → String
  | .vstr s => "\"" ++ s ++ "\""
  | .vint n => toString n
  | .vbool b => if b then "true" else "false"
  | .vnull => "null"

/-- Serialisation of the members of an object, comma-separated. -/
def dumpPairs : Fields → String
  | [] => ""
  | [(k, v)] => "\"" ++ k ++ "\":" ++ dumpVal v
  | (k, v) :: rest => "\"" ++ k ++ "\":" ++ dumpVal v ++ "," ++ dumpPairs rest

/-- `json.dumps(payload)`: the canonical text form the handler logs. -/
def dumps (payload : Fields) : String := "\x7b" ++ dumpPairs payload ++ "\x7d"

/-- The logging-internal attributes of the `logging.LogRecord` built by
`logger.info(...)`, before the `extra` dict is merged in. The key set is
exactly CPython's (`name`, `msg`, `args`, levels, source location, timing,
thread/process info); the values of the environment-dependent ones are
representative — no claim below compares against them, the claims depend
only on which KEYS a log record has. Note the payload's own fields (such
as `type`) are NOT attributes of the log record: the payload only enters
as the serialised `msg` string and via the `community_annotation` extra. -/
def stdAttrs (loggerName : String) (payload : Fields) : Fields :=
  [("name", Val.vstr loggerName),
   ("msg", Val.vstr (dumps payload)),
   ("args", Val.vnull),
   ("levelname", Val.vstr "INFO"),
   ("levelno", Val.vint 20),
   ("pathname", Val.vstr "core/notifier.py"),
   ("filename", Val.vstr "notifier.py"),
   ("module", Val.vstr "notifier"),
   ("exc_info", Val.vnull),
   ("exc_text", Val.vnull),
   ("stack_info", Val.vnull),
   ("lineno", Val.vint 155),
   ("funcName", Val.vstr "handle_hij_log"),
   ("created", Val.vint 0),
   ("msecs", Val.vint 0),
   ("relativeCreated", Val.vint 0),
   ("thread", Val.vint 0),
   ("threadName", Val.vstr "MainThread"),
   ("processName", Val.vstr "MainProcess"),
   ("process", Val.vint 0)]

/-- The `__dict__` of the log record the filter sees: the logging-internal
attributes (`std`), then the merged `extra` key `community_annotation`
holding `payload.get("community_annotation", "NA")`. -/
def makeLogRecordDict (std : Fields) (payload : Fields) : Fields :=
  std ++ [("community_annotation", annotOf payload)]

/-- The two log channels (`hijack_logger` / `mail_logger`). -/
inductive LogChannel where
  | hijack
  | mail
deriving DecidableEq

/-- One line written to a log channel: the serialised payload plus the
structured `community_annotation` field attached through `extra=`. -/
structure LogWrite where
  channel : LogChannel
  msg : String
  annot : Val
deriving DecidableEq

/-- What one consumer callback did for one delivered message: how many times
it acked, what it wrote (if anything), and whether it raised. -/
structure HandlerResult where
  acks : Nat
  written : Option LogWrite
  raised : Bool
deriving DecidableEq

/-- The `logger.info(...)` call inside a handler: build the log record,
run the attached `HijackLogFilter` over its `__dict__`; on `True` the line
is written with the `community_annotation` field, on `False` nothing is
written, and a `KeyError` from the filter propagates out of the `info`
call (the handler has no try/except). -/
def sinkEmit (ch : LogChannel) (rules : List Fields) (std : Fields) (payload : Fields) :
    Option LogWrite × Bool :=
  match HijackLogFilter.filter rules (makeLogRecordDict std payload) with
  | .keyError => (none, true)
  | .accept => (some { channel := ch, msg := dumps payload, annot := annotOf payload }, false)
  | .reject => (none, false)

/-- `Worker.handle_hij_log`: `message.ack()` first (exactly one ack,
unconditionally), then `hij_log.info(json.dumps(msg), extra=...)`. -/
def Worker.handle_hij_log (rules : List Fields) (std : Fields) (payload : Fields) :
    HandlerResult :=
  { acks := 1
    written := (sinkEmit .hijack rules std payload).1
    raised := (sinkEmit .hijack rules std payload).2 }

/-- `Worker.handle_mail_log`: `message.ack()` first, then
`mail_log.info(json.dumps(msg), extra=...)`. `mail_log` carries the same
`HijackLogFilter` over the same global `hij_log_filter` as `hij_log`
(source lines 46-47: both loggers get `addFilter(HijackLogFilter())`). -/
def Worker.handle_mail_log (rules : List Fields) (std : Fields) (payload : Fields) :
    HandlerResult :=
  { acks := 1
    written := (sinkEmit .mail rules std payload).1
    raised := (sinkEmit .mail rules std payload).2 }

/-- Result of the module-level filter-configuration load. -/
structure LoadResult where
  rules : List Fields
  loggedError : Bool
deriving DecidableEq

/-- Module-level `try: hij_log_filter = json.loads(os.getenv(...)) except:
log.exception(...); hij_log_filter = []`. The JSON parse itself is the
external `ujson` library; its outcome is the argument. Total: startup never
fails here. -/
def loadFilterConfig (parsed : Except Unit (List Fields)) : LoadResult :=
  match parsed with
  | .ok r => { rules := r, loggedError := false }
  | .error _ => { rules := [], loggedError := true }

/-- Observable events of one `Notifier.run()` invocation, in program order. -/
inductive RunEvent where
  | setRunning (b : Bool)
  | connectAttempt
  | consume
  | logException
  | logStopped
deriving DecidableEq

/-- Outcome of `Notifier.run()`: its event trace, and whether an exception
escapes to the caller. -/
structure RunOutcome where
  trace : List RunEvent
  raisedToCaller : Bool
deriving DecidableEq

/-- `Notifier.is_running`: returns the `_running` flag. -/
def Notifier.is_running (running : Bool) : Bool := running

/-- `Notifier.run()`: sets `self._running = True`, then inside
`try: with Connection(RABBITMQ_URI): self.worker = Worker(connection);
self.worker.run()` — `startupOk` models the connection and the Worker's
topology declaration succeeding, `fatalError` models `worker.run()` ending
with a connection-level exception. `except Exception: log.exception(...)`
swallows every failure; `finally: log.info("stopped"); self._running = False`
always runs. Nothing is re-raised. -/
def Notifier.run (startupOk : Bool) (fatalError : Bool) : RunOutcome :=
  { trace :=
      [RunEvent.setRunning true, RunEvent.connectAttempt] ++
        (if startupOk then
          [RunEvent.consume] ++ (if fatalError then [RunEvent.logException] else [])
        else
          [RunEvent.logException]) ++
        [RunEvent.logStopped, RunEvent.setRunning false]
    raisedToCaller := false }

/-- The successive values of the `_running` flag observable over a trace
(what `Notifier.is_running` returns at each point; initially `false`). -/
def runningStates (trace : List RunEvent) : List Bool :=
  trace.scanl (fun b e => match e with | RunEvent.setRunning b2 => b2 | _ => b) false

/-- The notifier's process state the `/config` handler could touch: the
loaded filter rule set and the Worker lifecycle flag. -/
structure ServiceState where
  filterRules : List Fields
  running : Bool
deriving DecidableEq

/-- The body of the `/config` POST response. -/
structure ConfigResponse where
  success : Bool
  message : String
deriving DecidableEq

/-- `ConfigHandler.post`: writes the fixed success body and touches no state. -/
def ConfigHandler.post (st : ServiceState) : ServiceState × ConfigResponse :=
  (st, { success := true, message := "configured" })

/-! ## Helper lemmas -/

theorem scanRule_eq_of_keysPresent (recDict : Fields) (rule : Fields)
    (h : keysPresent recDict rule = true) :
    scanRule recDict rule =
      (if anyPairMatches recDict rule then FilterResult.accept else FilterResult.reject) := by
  induction rule with
  | nil => rfl
  | cons kv rest ih =>
    obtain ⟨k, v⟩ := kv
    simp only [keysPresent, List.all_cons, Bool.and_eq_true] at h
    obtain ⟨rv, hrv⟩ := Option.isSome_iff_exists.mp h.1
    have hrest := ih h.2
    by_cases hvv : rv = v
    · subst hvv
      simp [scanRule, hrv, anyPairMatches, List.any_cons]
    · have hd : decide (lookupField recDict k = some v) = false := by
        rw [hrv]; simp [hvv]
      have hL : scanRule recDict ((k, v) :: rest) = scanRule recDict rest := by
        simp [scanRule, hrv, hvv]
      have hR : anyPairMatches recDict ((k, v) :: rest) = anyPairMatches recDict rest := by
        simp only [anyPairMatches, List.any_cons, hd, Bool.false_or]
      rw [hL, hrest, hR]

theorem scanRules_eq_of_allKeysPresent (recDict : Fields) (rules : List Fields)
    (h : allKeysPresent recDict rules = true) :
    scanRules recDict rules =
      (if rules.any (anyPairMatches recDict) then FilterResult.accept else FilterResult.reject) := by
  induction rules with
  | nil => rfl
  | cons rule rest ih =>
    simp only [allKeysPresent, List.all_cons, Bool.and_eq_true] at h
    have h1 := scanRule_eq_of_keysPresent recDict rule h.1
    have h2 := ih (by simpa [allKeysPresent] using h.2)
    by_cases hm : anyPairMatches recDict rule
    · simp [scanRules, h1, hm, List.any_cons]
    · simp [scanRules, h1, hm, List.any_cons, h2]

theorem filter_eq_of_allKeysPresent (recDict : Fields) (rules : List Fields)
    (hne : rules ≠ []) (h : allKeysPresent recDict rules = true) :
    HijackLogFilter.filter rules recDict =
      (if rules.any (anyPairMatches recDict) then FilterResult.accept else FilterResult.reject) := by
  cases rules with
  | nil => exact absurd rfl hne
  | cons r rest =>
    have : HijackLogFilter.filter (r :: rest) recDict = scanRules recDict (r :: rest) := rfl
    rw [this, scanRules_eq_of_allKeysPresent recDict (r :: rest) h]

theorem filter_ne_keyError_of_allKeysPresent (recDict : Fields) (rules : List Fields)
    (h : allKeysPresent recDict rules = true) :
    HijackLogFilter.filter rules recDict ≠ FilterResult.keyError := by
  cases rules with
  | nil => simp [HijackLogFilter.filter]
  | cons r rest =>
    rw [filter_eq_of_allKeysPresent recDict (r :: rest) (by simp) h]
    by_cases hm : (r :: rest).any (anyPairMatches recDict) <;> simp [hm]

/-! ## Claims -/

/-- C1, counterexample: the claim says a record is accepted iff some rule has
ALL of its (field, value) pairs equal in the record. On the record
`{a: 1, b: 3}` and the single two-pair rule `{a: 1, b: 2}`, the code accepts
(the inner loop returns `True` on the first equal pair, `a`, never checking
`b`), yet no rule has all of its pairs matching (`b` differs). -/
theorem C1_all_pairs_cex :
    HijackLogFilter.filter [[("a", Val.vint 1), ("b", Val.vint 2)]]
        [("a", Val.vint 1), ("b", Val.vint 3)] = FilterResult.accept
    ∧ [[("a", Val.vint 1), ("b", Val.vint 2)]].any
        (specRuleMatchesAll [("a", Val.vint 1), ("b", Val.vint 3)]) = false :=
  ⟨rfl, rfl⟩

/-- C1 (amended): for every record and every non-empty rule set whose rules
name only fields present in the record, the filter accepts the record iff
some rule has AT LEAST ONE (field, value) pair equal to the corresponding
field value of the record, and rejects it iff no pair of any rule matches.
(The source checks ANY pair of a rule, not ALL pairs; and a rule naming a
field absent from the record raises `KeyError` instead of failing the
match, hence the presence hypothesis.) -/
theorem C1_filter_any_pair_semantics (recDict : Fields) (rules : List Fields)
    (hne : rules ≠ []) (hkeys : allKeysPresent recDict rules = true) :
    (HijackLogFilter.filter rules recDict = FilterResult.accept
      ↔ rules.any (anyPairMatches recDict) = true)
    ∧ (HijackLogFilter.filter rules recDict = FilterResult.reject
      ↔ rules.any (anyPairMatches recDict) = false) := by
  rw [filter_eq_of_allKeysPresent recDict rules hne hkeys]
  by_cases hm : rules.any (anyPairMatches recDict) <;> simp [hm]

/-- C1 witness: a concrete instance of `C1_filter_any_pair_semantics` — the
record `{community_annotation: "critical"}` against the single-pair rule set
`[{community_annotation: "critical"}]` is accepted. -/
theorem C1_filter_any_pair_semantics_witness :
    ([[("community_annotation", Val.vstr "critical")]] : List Fields) ≠ []
    ∧ allKeysPresent [("community_annotation", Val.vstr "critical")]
        [[("community_annotation", Val.vstr "critical")]] = true
    ∧ (HijackLogFilter.filter [[("community_annotation", Val.vstr "critical")]]
          [("community_annotation", Val.vstr "critical")] = FilterResult.accept
        ↔ [[("community_annotation", Val.vstr "critical")]].any
            (anyPairMatches [("community_annotation", Val.vstr "critical")]) = true) :=
  ⟨by decide, by decide,
    (C1_filter_any_pair_semantics [("community_annotation", Val.vstr "critical")]
      [[("community_annotation", Val.vstr "critical")]] (by decide) (by decide)).1⟩

/-- C2, counterexample: the claim says the per-message sink path never
raises and a missing field merely fails that pair's match. But with the
rule set `[{type: "mail"}]` and payload `{x: 1}`, the log record's
`__dict__` has no `type` key (payload fields are not log-record
attributes), so `rec.__dict__["type"]` raises `KeyError`, which propagates
out of `mail_log.info` — the handler has no try/except. -/
theorem C2_sink_raises_cex :
    (Worker.handle_mail_log [[("type", Val.vstr "mail")]]
        (stdAttrs "mail_logger" [("x", Val.vint 1)]) [("x", Val.vint 1)]).raised = true :=
  rfl

/-- C2 (amended): the sink path does not raise only under the proviso that
every field named by the rules is present in the log record's attribute
dict; a rule naming an absent field makes the filter raise `KeyError`
(uncaught by the handler) instead of failing that pair's match. The
acknowledgment is unaffected either way, since it precedes the log call. -/
theorem C2_no_raise_when_keys_present (rules : List Fields) (std payload : Fields)
    (h : allKeysPresent (makeLogRecordDict std payload) rules = true) :
    (Worker.handle_hij_log rules std payload).raised = false
    ∧ (Worker.handle_mail_log rules std payload).raised = false := by
  have hne := filter_ne_keyError_of_allKeysPresent (makeLogRecordDict std payload) rules h
  cases hf : HijackLogFilter.filter rules (makeLogRecordDict std payload) <;>
    simp [Worker.handle_hij_log, Worker.handle_mail_log, sinkEmit, hf]
  exact absurd hf hne

/-- C2 witness: a concrete instance of `C2_no_raise_when_keys_present` —
with the rule set `[{community_annotation: "x"}]` (whose only key is always
attached to the log record) and an empty payload, the hijack handler does
not raise. -/
theorem C2_no_raise_when_keys_present_witness :
    allKeysPresent (makeLogRecordDict (stdAttrs "hijack_logger" []) [])
        [[("community_annotation", Val.vstr "x")]] = true
    ∧ (Worker.handle_hij_log [[("community_annotation", Val.vstr "x")]]
        (stdAttrs "hijack_logger" []) []).raised = false :=
  ⟨by decide,
    (C2_no_raise_when_keys_present [[("community_annotation", Val.vstr "x")]]
      (stdAttrs "hijack_logger" []) [] (by decide)).1⟩

/-- C3: for every delivered message, each handler acknowledges exactly once
(`message.ack()` is the unconditional first statement of both
`handle_hij_log` and `handle_mail_log`), whatever the filter decides and
whether or not the subsequent log write raises. -/
theorem C3_exactly_one_ack (rules : List Fields) (std payload : Fields) :
    (Worker.handle_hij_log rules std payload).acks = 1
    ∧ (Worker.handle_mail_log rules std payload).acks = 1 :=
  ⟨rfl, rfl⟩

/-- C4, counterexample: the claim says the record
`{community_annotation: "abuse123", type: "hijack"}` against the rule set
`[{type: "hijack"}]` is accepted and a line with `annotation = "abuse123"`
is written. In fact nothing is written: the filter reads
`rec.__dict__["type"]`, and the log record has no `type` attribute (only
`community_annotation` is attached from the payload), so it raises
`KeyError`. -/
theorem C4_scenario_cex :
    (Worker.handle_hij_log [[("type", Val.vstr "hijack")]]
        (stdAttrs "hijack_logger"
          [("community_annotation", Val.vstr "abuse123"), ("type", Val.vstr "hijack")])
        [("community_annotation", Val.vstr "abuse123"), ("type", Val.vstr "hijack")]).written
      = none :=
  rfl

/-- C4 (amended): on the record `{community_annotation: "abuse123",
type: "hijack"}` with hijack rule set `[{type: "hijack"}]`, filter
evaluation raises `KeyError` (payload fields such as `type` are not
attributes of the log record the filter inspects), so the handler acks
once, writes nothing, and lets the exception escape. -/
theorem C4_scenario_keyerror :
    HijackLogFilter.filter [[("type", Val.vstr "hijack")]]
        (makeLogRecordDict
          (stdAttrs "hijack_logger"
            [("community_annotation", Val.vstr "abuse123"), ("type", Val.vstr "hijack")])
          [("community_annotation", Val.vstr "abuse123"), ("type", Val.vstr "hijack")])
      = FilterResult.keyError
    ∧ Worker.handle_hij_log [[("type", Val.vstr "hijack")]]
        (stdAttrs "hijack_logger"
          [("community_annotation", Val.vstr "abuse123"), ("type", Val.vstr "hijack")])
        [("community_annotation", Val.vstr "abuse123"), ("type", Val.vstr "hijack")]
      = { acks := 1, written := none, raised := true } :=
  ⟨rfl, rfl⟩

/-- C5, counterexample: the claim says the mail sink's filtering is governed
by an independent mail-category rule set. In fact both loggers carry a
`HijackLogFilter` over the single global `hij_log_filter` (loaded from
`HIJACK_LOG_FILTER` only): with the hijack-category rule set
`[{community_annotation: "critical"}]` the mail payload `{type: "mail"}` is
suppressed (its attached annotation is `"NA"`, not `"critical"`), while
under an empty rule set the very same mail message is written — the mail
sink's behaviour varies with the hijack-category configuration. -/
theorem C5_mail_governed_by_hijack_rules_cex :
    (Worker.handle_mail_log [[("community_annotation", Val.vstr "critical")]]
        (stdAttrs "mail_logger" [("type", Val.vstr "mail")]) [("type", Val.vstr "mail")]).written
      = none
    ∧ (Worker.handle_mail_log []
        (stdAttrs "mail_logger" [("type", Val.vstr "mail")]) [("type", Val.vstr "mail")]).written
      = some { channel := LogChannel.mail, msg := dumps [("type", Val.vstr "mail")],
               annot := Val.vstr "NA" } :=
  ⟨rfl, rfl⟩

/-- C5 (amended): there is no per-category configuration — both category
sinks share the one rule set loaded from `HIJACK_LOG_FILTER` (source lines
46-47 attach a `HijackLogFilter` to both loggers): for every rule set,
logging-internal attributes and payload, the mail handler raises exactly
when the hijack handler would, and writes exactly when the hijack handler
would. -/
theorem C5_shared_rule_set (rules : List Fields) (std payload : Fields) :
    (Worker.handle_mail_log rules std payload).raised
      = (Worker.handle_hij_log rules std payload).raised
    ∧ ((Worker.handle_mail_log rules std payload).written).isSome
      = ((Worker.handle_hij_log rules std payload).written).isSome := by
  cases hf : HijackLogFilter.filter rules (makeLogRecordDict std payload) <;>
    simp [Worker.handle_hij_log, Worker.handle_mail_log, sinkEmit, hf]

/-- C6, counterexample: the claim says `is_running()` never returns true
during a `run()` invocation that fails before consumption starts. But
`run()` sets `_running = True` as its first statement, before attempting
the connection: in the trace of a run whose startup fails (no `consume`
event ever happens), there is an observable point where `is_running`
returns true. -/
theorem C6_transient_running_cex :
    (runningStates (Notifier.run false false).trace).any Notifier.is_running = true
    ∧ RunEvent.consume ∉ (Notifier.run false false).trace := by
  decide

/-- C6 (amended): `run()` enters RUNNING unconditionally before the
connection attempt (first event is `_running := True`), so a startup
failure is transiently observable as running; in every case — startup
failure, fatal consume-loop error, or clean stop — the exception (if any)
is logged and not re-raised to the caller, consumption happens iff startup
succeeded, and the final `_running` state is false (STOPPED). -/
theorem C6_run_lifecycle (startupOk fatalError : Bool) :
    (Notifier.run startupOk fatalError).raisedToCaller = false
    ∧ ((Notifier.run startupOk fatalError).trace).head? = some (RunEvent.setRunning true)
    ∧ (runningStates ((Notifier.run startupOk fatalError).trace)).getLast? = some false
    ∧ ((Notifier.run startupOk fatalError).trace).contains RunEvent.logException
        = (!startupOk || fatalError)
    ∧ ((Notifier.run startupOk fatalError).trace).contains RunEvent.consume = startupOk := by
  cases startupOk <;> cases fatalError <;> decide

/-- C7: for every record, filter evaluation against an empty rule set
returns True (`if not hij_log_filter: return True` — empty rule set is
accept-all, fail-open). -/
theorem C7_empty_rules_accept_all (recDict : Fields) :
    HijackLogFilter.filter [] recDict = FilterResult.accept :=
  rfl

/-- C8: whenever a handler writes a log entry, that entry's structured
annotation field equals `payload["community_annotation"]` when the key is
present and the literal `"NA"` otherwise (for both categories); and
concretely, the record `{type: "mail"}` under an empty rule set is
accepted and written to the mail channel with annotation `"NA"`. -/
theorem C8_written_annot (rules : List Fields) (std payload : Fields) :
    ((Worker.handle_hij_log rules std payload).written).all
        (fun w => decide
          (w.annot = (lookupField payload "community_annotation").getD (Val.vstr "NA"))) = true
    ∧ ((Worker.handle_mail_log rules std payload).written).all
        (fun w => decide
          (w.annot = (lookupField payload "community_annotation").getD (Val.vstr "NA"))) = true
    ∧ (Worker.handle_mail_log [] (stdAttrs "mail_logger" [("type", Val.vstr "mail")])
          [("type", Val.vstr "mail")]).written
      = some { channel := LogChannel.mail, msg := dumps [("type", Val.vstr "mail")],
               annot := Val.vstr "NA" } := by
  refine ⟨?_, ?_, rfl⟩ <;>
    cases hf : HijackLogFilter.filter rules (makeLogRecordDict std payload) <;>
      simp [Worker.handle_hij_log, Worker.handle_mail_log, sinkEmit, hf, annotOf]

/-- C9: when the JSON parse of the `HIJACK_LOG_FILTER` environment variable
fails, the module-level load catches the exception, logs it, and degrades
to the empty rule set — under which the filter accepts every record — and
startup does not fail (the load is total). -/
theorem C9_malformed_config_fail_open :
    loadFilterConfig (Except.error ()) = { rules := [], loggedError := true }
    ∧ ∀ recDict : Fields,
        HijackLogFilter.filter (loadFilterConfig (Except.error ())).rules recDict
          = FilterResult.accept :=
  ⟨rfl, fun _ => rfl⟩

/-- C10: `ConfigHandler.post` responds with exactly
`{"success": true, "message": "configured"}` for every state of the
service, and leaves the filter rule set and the Worker lifecycle flag
unchanged — it performs no reconfiguration side effect. -/
theorem C10_config_post_no_frame_effect (st : ServiceState) :
    ConfigHandler.post st = (st, { success := true, message := "configured" }) :=
  rfl
